import Mathlib

/-!
Verification of the Person-record validation repository (`src/main.py`).

The source defines four variants of a validated `Person` record — a
dataclass, a pydantic model, a marshmallow schema, and an attrs class —
each holding `name`, `age`, `email`, plus an unused `type_check`
decorator. Every definition below is a shallow embedding of one piece of
that file; doc comments cite the source lines embedded.
-/

/-- The record shape shared by all four variants (`name`, `age`, `email`).
All four source classes carry exactly these three fields. -/
structure Person where
  name : String
  age : Int
  email : String
deriving DecidableEq, Repr

/-- Decidable equality for `Except`, so that concrete runs of the
construction functions can be checked by `decide`. -/
def exceptDecEq {ε α : Type} [DecidableEq ε] [DecidableEq α] :
    DecidableEq (Except ε α)
  | .error e, .error f =>
    if h : e = f then .isTrue (by rw [h])
    else .isFalse (by intro hc; cases hc; exact h rfl)
  | .error _, .ok _ => .isFalse (by intro hc; cases hc)
  | .ok _, .error _ => .isFalse (by intro hc; cases hc)
  | .ok a, .ok b =>
    if h : a = b then .isTrue (by rw [h])
    else .isFalse (by intro hc; cases hc; exact h rfl)

instance {ε α : Type} [DecidableEq ε] [DecidableEq α] :
    DecidableEq (Except ε α) := exceptDecEq

/-- Splits a character list at every occurrence of `c`
(the model of Python string splitting used by `emailOk`). -/
def splitAtChar (c : Char) : List Char → List (List Char)
  | [] => [[]]
  | x :: xs =>
    match splitAtChar c xs with
    | [] => if x = c then [[], []] else [[x]]
    | r :: rs => if x = c then [] :: r :: rs else (x :: r) :: rs

/-- Modelled from the spec: the e-mail well-formedness check performed by the
pydantic `EmailStr` and marshmallow `fields.Email` library validators, whose
code is not part of this repository. Spec §4.1: the address is
`local-part "@" domain` with the domain containing a dot; an address lacking
an `"@"` or a dotted domain is rejected. -/
def emailOk (e : String) : Bool :=
  match splitAtChar '@' e.data with
  | [l, d] => !l.isEmpty && d.contains '.'
  | _ => false

/-- The single error raised by `PersonWithDataclass.__post_init__`
(src/main.py lines 32-34) and `PersonWithAttrs.validate_name`
(lines 87-90): `ValueError("name must not be empty")`.
The spec's taxonomy calls it `EmptyNameError`. -/
inductive ValErr where
  | nameMustNotBeEmpty
deriving DecidableEq, Repr

/-- `PersonWithDataclass` construction (src/main.py lines 26-34):
`age` and `email` have field defaults `0` and `''`; `__post_init__`
raises iff `name` is falsy, i.e. the empty string. No age or email
check is performed. -/
def dataclassInit (name : String) (age : Int := 0) (email : String := "") :
    Except ValErr Person :=
  if name = "" then .error .nameMustNotBeEmpty
  else .ok ⟨name, age, email⟩

/-- `PersonWithAttrs` construction (src/main.py lines 81-90):
`age` and `email` default to `0` and `''`; the only validator,
`validate_name`, raises iff `name` is falsy. -/
def attrsInit (name : String) (age : Int := 0) (email : String := "") :
    Except ValErr Person :=
  if name = "" then .error .nameMustNotBeEmpty
  else .ok ⟨name, age, email⟩

/-- Field-validation failures of `PersonWithPydantic` (src/main.py
lines 44-53): the `name` validator's `ValueError` for an empty name,
the `PositiveInt` bound on `age`, and the `EmailStr` format check.
The spec groups them as `EmptyNameError`, `NonPositiveAgeError`,
`InvalidEmailFormatError`. -/
inductive VErr where
  | emptyName
  | nonPositiveAge
  | invalidEmailFormat
deriving DecidableEq, Repr

/-- `PersonWithPydantic` construction (src/main.py lines 44-53): the
model validates each field in declaration order — `name` must be
non-empty (`name_must_not_be_empty`), `age : PositiveInt` must be `> 0`,
`email : EmailStr` must be well-formed — collecting every failing
field's error into one `ValidationError`. -/
def pydanticInit (name : String) (age : Int) (email : String) :
    Except (List VErr) Person :=
  match (if name = "" then [VErr.emptyName] else [])
      ++ (if age ≤ 0 then [VErr.nonPositiveAge] else [])
      ++ (if emailOk email then [] else [VErr.invalidEmailFormat]) with
  | [] => .ok ⟨name, age, email⟩
  | es => .error es

/-- Validation failures of `PersonWithMarshmallow` (src/main.py
lines 63-71): `validate.Length(min=1)` on `name`, the `fields.Email`
format check, and the schema-level `validate_age` error
`"age must be positive"`. -/
inductive MErr where
  | shorterThanMin
  | notValidEmail
  | ageMustBePositive
deriving DecidableEq, Repr

/-- `PersonWithMarshmallow().load` (src/main.py lines 63-71): field
validation collects a length error for `name` (min length 1) and a
format error for `email`. The schema-level validator `validate_age` is
declared with a bare `@validates_schema`, whose marshmallow-3 default
`skip_on_field_errors=True` skips it whenever any field-level error was
detected; only on field-clean input does it run and raise
`"age must be positive"` when `data["age"] <= 0`. `load` returns the
record only when no error was raised. -/
def marshmallowLoad (name : String) (age : Int) (email : String) :
    Except (List MErr) Person :=
  match (if name.length < 1 then [MErr.shorterThanMin] else [])
      ++ (if emailOk email then [] else [MErr.notValidEmail]) with
  | [] =>
    if age ≤ 0 then .error [MErr.ageMustBePositive]
    else .ok ⟨name, age, email⟩
  | es => .error es

/-- `PersonWithDataclass.__str__` (src/main.py lines 36-37):
`f"{self.name} {self.age} {self.email}"`. -/
def dataclassStr (p : Person) : String :=
  p.name ++ " " ++ toString p.age ++ " " ++ p.email

/-- `PersonWithPydantic.__str__` (src/main.py lines 55-56). -/
def pydanticStr (p : Person) : String :=
  p.name ++ " " ++ toString p.age ++ " " ++ p.email

/-- `PersonWithAttrs.__str__` (src/main.py lines 92-93). -/
def attrsStr (p : Person) : String :=
  p.name ++ " " ++ toString p.age ++ " " ++ p.email

/-- `PersonWithDataclass.__repr__` (src/main.py lines 39-40):
`f"{self.__class__.__name__}({self.name} {self.age} {self.email})"`. -/
def dataclassDebugRepr (p : Person) : String :=
  "PersonWithDataclass(" ++ p.name ++ " " ++ toString p.age ++ " " ++ p.email ++ ")"

/-- `PersonWithPydantic.__repr__` (src/main.py lines 58-59). -/
def pydanticDebugRepr (p : Person) : String :=
  "PersonWithPydantic(" ++ p.name ++ " " ++ toString p.age ++ " " ++ p.email ++ ")"

/-- Python `repr` of a string that contains no quote, backslash or
non-printable character: the text wrapped in single quotes. -/
def pyStrReprPlain (s : String) : String := "'" ++ s ++ "'"

/-- The `__repr__` of `PersonWithAttrs`: the class (src/main.py
lines 81-93) defines no `__repr__` of its own, so the `@attr.s`
decorator generates one, rendering `ClassName(field=repr(value), ...)`
with every field name, `repr`-quoted values and comma separators. -/
def attrsGeneratedRepr (p : Person) : String :=
  "PersonWithAttrs(name=" ++ pyStrReprPlain p.name ++ ", age=" ++ toString p.age
    ++ ", email=" ++ pyStrReprPlain p.email ++ ")"

/-- Python attribute assignment `p.age = a` on a constructed record:
`@dataclass` (src/main.py line 26) and `@attr.s` (line 81) are applied
without `frozen=True`, and `PersonWithPydantic` sets no `frozen`
config, so every variant's instances accept plain attribute assignment
after construction, and no validator is re-run by it. -/
def setAge (p : Person) (a : Int) : Person := { p with age := a }

/-- The §3 invariants of the spec's data model: `name` non-empty,
`age > 0`, `email` well-formed. -/
def recordInvariant (p : Person) : Prop :=
  p.name ≠ "" ∧ 0 < p.age ∧ emailOk p.email = true

instance (p : Person) : Decidable (recordInvariant p) := by
  unfold recordInvariant; infer_instance

/-- Python runtime values, restricted to the primitive kinds relevant to
the `type_check` decorator's argument checking. -/
inductive PyVal where
  | int (n : Int)
  | bool (b : Bool)
  | str (s : String)
  | pyNone
deriving DecidableEq, Repr

/-- Python type objects passed in the decorator's `*types`. -/
inductive PyType where
  | int
  | bool
  | str
deriving DecidableEq, Repr

/-- Python `isinstance` on the modelled values; `bool` is a subclass of
`int` in Python, so a `bool` value is an instance of `int`. -/
def isinstance : PyVal → PyType → Bool
  | .int _, .int => true
  | .bool _, .int => true
  | .bool _, .bool => true
  | .str _, .str => true
  | _, _ => false

/-- The two exceptions the `type_check` wrapper raises (src/main.py
lines 15 and 17), each with a constant message:
`TypeError("Arguments must match specified types")` and
`ValueError("Function name must match follows pattern")`. -/
inductive PyError where
  | typeError
  | valueError
deriving DecidableEq, Repr

/-- The argument-type test of src/main.py line 14:
`all(isinstance(arg, typ) for arg, typ in zip(args, types))`.
Python's `zip` truncates to the shorter sequence. -/
def typesOk (args : List PyVal) (types : List PyType) : Bool :=
  (List.zip args types).all fun p => isinstance p.1 p.2

/-- Python truthiness of the `follows` argument (line 16, `not follows`):
falsy iff it is `None` or the empty string. -/
def followsFalsy : Option String → Bool
  | none => true
  | some s => s == ""

/-- Models Python `re.match(pattern, string)` for patterns free of regex
metacharacters: such a pattern matches iff it is a literal prefix of the
string (`re.match` anchors at the start only). -/
def reMatch (pat s : String) : Bool := pat.isPrefixOf s

/-- The wrapper produced by the `type_check` decorator (src/main.py
lines 10-22): first the argument-type test over `zip(args, types)`
(`TypeError` on failure), then the naming test
`not follows or not re.match(follows, func.__name__)` (`ValueError` on
failure), and only then the call of the wrapped function. `kwargs` are
passed through to the function but never inspected by either test. -/
def typeCheckWrapper (follows : Option String) (types : List PyType)
    (funcName : String) (func : List PyVal → List (String × PyVal) → PyVal)
    (args : List PyVal) (kwargs : List (String × PyVal)) : Except PyError PyVal :=
  if !(typesOk args types) then .error .typeError
  else if followsFalsy follows || !(reMatch (follows.getD "") funcName) then
    .error .valueError
  else .ok (func args kwargs)

/-- The error component of a wrapper outcome (`none` when the wrapped
function was reached). -/
def errOf {ε α : Type} : Except ε α → Option ε
  | .error e => some e
  | .ok _ => none

/-- Whether a construction outcome failed with the given error among its
collected validation errors. -/
def exceptHasErr {ε α : Type} [DecidableEq ε] : Except (List ε) α → ε → Bool
  | .error es, e => es.contains e
  | .ok _, _ => false

/-- `zip` ignores everything past the length of the shorter list, so
appending to a list already at least as long as the other changes
nothing. -/
theorem zip_append_left {α β : Type} (xs ys : List α) (ts : List β)
    (h : ts.length ≤ xs.length) : List.zip (xs ++ ys) ts = List.zip xs ts := by
  induction xs generalizing ts with
  | nil =>
    have : ts = [] := List.eq_nil_of_length_eq_zero (Nat.le_zero.mp h)
    simp [this]
  | cons x xs ih =>
    cases ts with
    | nil => simp
    | cons t ts =>
      simp only [List.cons_append, List.zip_cons_cons]
      rw [ih ts (by simpa using h)]

/-- Claim C1: for every valid input triple (non-empty name, positive
age, well-formed email) construction succeeds in the dataclass, pydantic
and attrs variants, and the display rendering of the resulting record is
the three field values space-joined in the order name, age, email. -/
theorem create_render_valid_inputs (n : String) (a : Int) (e : String)
    (hn : n ≠ "") (ha : 0 < a) (he : emailOk e = true) :
    dataclassInit n a e = .ok ⟨n, a, e⟩
    ∧ pydanticInit n a e = .ok ⟨n, a, e⟩
    ∧ attrsInit n a e = .ok ⟨n, a, e⟩
    ∧ dataclassStr ⟨n, a, e⟩ = n ++ " " ++ toString a ++ " " ++ e
    ∧ pydanticStr ⟨n, a, e⟩ = n ++ " " ++ toString a ++ " " ++ e
    ∧ attrsStr ⟨n, a, e⟩ = n ++ " " ++ toString a ++ " " ++ e := by
  refine ⟨?_, ?_, ?_, rfl, rfl, rfl⟩
  · simp [dataclassInit, hn]
  · simp [pydanticInit, hn, he, ha.not_le]
  · simp [attrsInit, hn]

/-- Witness for C1 at the spec's concrete scenario
`create("John", 30, "a@example.com")`. -/
theorem create_render_valid_inputs_witness :
    (("John" : String) ≠ "" ∧ (0 : Int) < 30 ∧ emailOk "a@example.com" = true)
    ∧ (dataclassInit "John" 30 "a@example.com" = .ok ⟨"John", 30, "a@example.com"⟩
       ∧ pydanticInit "John" 30 "a@example.com" = .ok ⟨"John", 30, "a@example.com"⟩
       ∧ attrsInit "John" 30 "a@example.com" = .ok ⟨"John", 30, "a@example.com"⟩
       ∧ dataclassStr ⟨"John", 30, "a@example.com"⟩
         = "John" ++ " " ++ toString (30 : Int) ++ " " ++ "a@example.com"
       ∧ pydanticStr ⟨"John", 30, "a@example.com"⟩
         = "John" ++ " " ++ toString (30 : Int) ++ " " ++ "a@example.com"
       ∧ attrsStr ⟨"John", 30, "a@example.com"⟩
         = "John" ++ " " ++ toString (30 : Int) ++ " " ++ "a@example.com") :=
  ⟨⟨by decide, by decide, by decide⟩,
   create_render_valid_inputs "John" 30 "a@example.com" (by decide) (by decide) (by decide)⟩

/-- Counterexample to C2: marshmallow 3's bare `@validates_schema`
defaults to `skip_on_field_errors=True`, so when the name already has a
field-level error `validate_age` never runs: at
`("", 0, "a@example.com")` — an input with `age ≤ 0` — `load` fails
with only the name length error and the claimed non-positive-age error
is absent. -/
theorem marshmallow_age_error_skipped :
    ((0 : Int) ≤ 0)
    ∧ marshmallowLoad "" 0 "a@example.com" = .error [.shorterThanMin]
    ∧ exceptHasErr (marshmallowLoad "" 0 "a@example.com") .ageMustBePositive = false := by
  decide

/-- Claim C2 as amended: for every input with `age ≤ 0` (including the
boundary 0), the two variants that implement the positivity check
produce no record — pydantic (`PositiveInt`) always reports the
non-positive-age error among its collected field errors, while
marshmallow (`validate_age`) always fails but reports the age error
exactly on field-clean input, its schema-level validator being skipped
whenever a name or email field error exists. -/
theorem nonpositive_age_rejected (n : String) (a : Int) (e : String) (ha : a ≤ 0) :
    exceptHasErr (pydanticInit n a e) .nonPositiveAge = true
    ∧ errOf (marshmallowLoad n a e) ≠ none
    ∧ (1 ≤ n.length → emailOk e = true →
        marshmallowLoad n a e = .error [.ageMustBePositive]) := by
  refine ⟨?_, ?_, fun hn he => ?_⟩
  · rcases eq_or_ne n "" with hn | hn <;> by_cases he : emailOk e = true <;>
      simp [pydanticInit, exceptHasErr, hn, he, ha]
  · by_cases hn : n.length < 1 <;> by_cases he : emailOk e = true <;>
      simp [marshmallowLoad, errOf, hn, he, ha]
  · simp [marshmallowLoad, Nat.not_lt.mpr hn, he, ha]

/-- Witness for the amended C2 at the spec's boundary scenario
`create("John", 0, "a@example.com")`. -/
theorem nonpositive_age_rejected_witness :
    ((0 : Int) ≤ 0)
    ∧ (exceptHasErr (pydanticInit "John" 0 "a@example.com") .nonPositiveAge = true
       ∧ errOf (marshmallowLoad "John" 0 "a@example.com") ≠ none
       ∧ marshmallowLoad "John" 0 "a@example.com" = .error [.ageMustBePositive]) :=
  ⟨by decide,
   ⟨(nonpositive_age_rejected "John" 0 "a@example.com" (by decide)).1,
    (nonpositive_age_rejected "John" 0 "a@example.com" (by decide)).2.1,
    (nonpositive_age_rejected "John" 0 "a@example.com" (by decide)).2.2
      (by decide) (by decide)⟩⟩

/-- Counterexample to C3: the whitespace-only name `" "` is truthy in
Python and of length 1, so all four variants accept it; construction
succeeds rather than failing with `EmptyNameError`. -/
theorem whitespace_name_accepted :
    (" " : String) ≠ ""
    ∧ dataclassInit " " 30 "a@example.com" = .ok ⟨" ", 30, "a@example.com"⟩
    ∧ pydanticInit " " 30 "a@example.com" = .ok ⟨" ", 30, "a@example.com"⟩
    ∧ marshmallowLoad " " 30 "a@example.com" = .ok ⟨" ", 30, "a@example.com"⟩
    ∧ attrsInit " " 30 "a@example.com" = .ok ⟨" ", 30, "a@example.com"⟩ := by
  decide

/-- Claim C3 as amended: for every input whose name is the empty string,
construction fails with the empty-name validation error in all four
variants, regardless of the age and email values; names consisting only
of whitespace are not rejected. -/
theorem empty_name_rejected (a : Int) (e : String) :
    dataclassInit "" a e = .error .nameMustNotBeEmpty
    ∧ attrsInit "" a e = .error .nameMustNotBeEmpty
    ∧ exceptHasErr (pydanticInit "" a e) .emptyName = true
    ∧ exceptHasErr (marshmallowLoad "" a e) .shorterThanMin = true := by
  refine ⟨rfl, rfl, ?_, ?_⟩
  · by_cases ha : a ≤ 0 <;> by_cases he : emailOk e = true <;>
      simp [pydanticInit, exceptHasErr, ha, he]
  · by_cases ha : a ≤ 0 <;> by_cases he : emailOk e = true <;>
      simp [marshmallowLoad, exceptHasErr, ha, he]

/-- Counterexample to C4: `PersonWithDataclass` performs no email
validation at all, so construction succeeds on the spec's own invalid
email `"not-an-email"` instead of failing. -/
theorem dataclass_accepts_bad_email :
    emailOk "not-an-email" = false
    ∧ dataclassInit "John" 30 "not-an-email" = .ok ⟨"John", 30, "not-an-email"⟩ := by
  decide

/-- Claim C4 as amended: for every input whose email lacks an `"@"` or a
dotted domain, the two variants that validate email — pydantic
(`EmailStr`) and marshmallow (`fields.Email`) — fail construction with
the invalid-email-format error; the dataclass and attrs variants perform
no email validation and accept any email string. -/
theorem bad_email_rejected (n : String) (a : Int) (e : String)
    (he : emailOk e = false) :
    exceptHasErr (pydanticInit n a e) .invalidEmailFormat = true
    ∧ exceptHasErr (marshmallowLoad n a e) .notValidEmail = true := by
  constructor
  · rcases eq_or_ne n "" with hn | hn <;> by_cases ha : a ≤ 0 <;>
      simp [pydanticInit, exceptHasErr, hn, ha, he]
  · by_cases hn : n.length < 1 <;> by_cases ha : a ≤ 0 <;>
      simp [marshmallowLoad, exceptHasErr, hn, ha, he]

/-- Witness for the amended C4 at the spec's concrete scenario
`create("John", 30, "not-an-email")`. -/
theorem bad_email_rejected_witness :
    (emailOk "not-an-email" = false)
    ∧ (exceptHasErr (pydanticInit "John" 30 "not-an-email") .invalidEmailFormat = true
       ∧ exceptHasErr (marshmallowLoad "John" 30 "not-an-email") .notValidEmail = true) :=
  ⟨by decide, bad_email_rejected "John" 30 "not-an-email" (by decide)⟩

/-- Claim C5: the dataclass-style and attrs-style variants perform no
age positivity check: for any age whatsoever (zero and negative values
included) and any email, construction with a non-empty name returns a
record. -/
theorem dataclass_attrs_skip_age_check (n : String) (a : Int) (e : String)
    (hn : n ≠ "") :
    dataclassInit n a e = .ok ⟨n, a, e⟩ ∧ attrsInit n a e = .ok ⟨n, a, e⟩ := by
  constructor <;> simp [dataclassInit, attrsInit, hn]

/-- Witness for C5 at the boundary age 0. -/
theorem dataclass_attrs_skip_age_check_witness :
    (("John" : String) ≠ "")
    ∧ (dataclassInit "John" 0 "a@example.com" = .ok ⟨"John", 0, "a@example.com"⟩
       ∧ attrsInit "John" 0 "a@example.com" = .ok ⟨"John", 0, "a@example.com"⟩) :=
  ⟨by decide, dataclass_attrs_skip_age_check "John" 0 "a@example.com" (by decide)⟩

/-- Counterexample to C6: none of the record classes is frozen, so a
record constructed valid can be mutated by plain attribute assignment
into one violating the §3 invariants. -/
theorem record_mutable_after_create :
    dataclassInit "John" 30 "a@example.com" = .ok ⟨"John", 30, "a@example.com"⟩
    ∧ recordInvariant ⟨"John", 30, "a@example.com"⟩
    ∧ setAge ⟨"John", 30, "a@example.com"⟩ 0 = ⟨"John", 0, "a@example.com"⟩
    ∧ ¬ recordInvariant ⟨"John", 0, "a@example.com"⟩ := by
  decide

/-- Claim C6 as amended: records are not immutable — attribute
assignment after construction always succeeds, runs no validator, and
setting a non-positive age yields a record violating the §3 invariants;
only the repository's own operations (construction and rendering) never
mutate a record. -/
theorem attribute_assignment_unvalidated (p : Person) (a : Int)
    (ha : a ≤ 0) :
    (setAge p a).name = p.name ∧ (setAge p a).email = p.email
    ∧ (setAge p a).age = a ∧ ¬ recordInvariant (setAge p a) := by
  refine ⟨rfl, rfl, rfl, fun hinv => ?_⟩
  have : (0 : Int) < a := by simpa [setAge] using hinv.2.1
  omega

/-- Witness for the amended C6: setting age 0 on the valid record built
from `("John", 30, "a@example.com")`. -/
theorem attribute_assignment_unvalidated_witness :
    ((0 : Int) ≤ 0)
    ∧ ((setAge ⟨"John", 30, "a@example.com"⟩ 0).name
         = (⟨"John", 30, "a@example.com"⟩ : Person).name
       ∧ (setAge ⟨"John", 30, "a@example.com"⟩ 0).email
         = (⟨"John", 30, "a@example.com"⟩ : Person).email
       ∧ (setAge ⟨"John", 30, "a@example.com"⟩ 0).age = 0
       ∧ ¬ recordInvariant (setAge ⟨"John", 30, "a@example.com"⟩ 0)) :=
  ⟨by decide,
   attribute_assignment_unvalidated ⟨"John", 30, "a@example.com"⟩ 0 (by decide)⟩

/-- Counterexample to C7: `PersonWithAttrs` defines no `__repr__`, so
its debug rendering is the attrs-generated form with field names,
commas and quoted values — not the space-joined
`"PersonWithAttrs(John 30 X7Q9u@example.com)"` the claim requires. -/
theorem attrs_debug_repr_not_space_joined :
    attrsGeneratedRepr ⟨"John", 30, "X7Q9u@example.com"⟩
      = "PersonWithAttrs(name='John', age=30, email='X7Q9u@example.com')"
    ∧ attrsGeneratedRepr ⟨"John", 30, "X7Q9u@example.com"⟩
      ≠ "PersonWithAttrs(John 30 X7Q9u@example.com)" := by
  decide

/-- Claim C7 as amended: the debug rendering is
`"<TypeName>(<name> <age> <email>)"` — the type name around the
space-joined display form — for the dataclass and pydantic variants
(the two that define `__repr__` in the source). -/
theorem debug_repr_dataclass_pydantic (p : Person) :
    dataclassDebugRepr p = "PersonWithDataclass(" ++ dataclassStr p ++ ")"
    ∧ pydanticDebugRepr p = "PersonWithPydantic(" ++ pydanticStr p ++ ")" := by
  constructor <;>
    simp [dataclassDebugRepr, pydanticDebugRepr, dataclassStr, pydanticStr,
      String.append_assoc]

/-- Claim C8: a function wrapped with `type_check` using the defaulted
`follows=None` (which leaves `*types` empty as well, since `types` can
only be supplied after a positional `follows`) raises
`ValueError("Function name must match follows pattern")` on every call,
whatever the arguments; the wrapped function never runs — the outcome
is the same for every `func`. -/
theorem default_follows_always_value_error
    (fname : String) (func : List PyVal → List (String × PyVal) → PyVal)
    (args : List PyVal) (kwargs : List (String × PyVal)) :
    typeCheckWrapper none [] fname func args kwargs = .error .valueError := by
  simp [typeCheckWrapper, typesOk, followsFalsy]

/-- Claim C9: the dataclass and attrs variants can be constructed from a
name alone — `age` defaults to `0` and `email` to the empty string —
and construction succeeds for any non-empty name, yielding a record
with age 0 and empty email. -/
theorem name_only_construction_defaults (n : String) (hn : n ≠ "") :
    dataclassInit n = .ok ⟨n, 0, ""⟩ ∧ attrsInit n = .ok ⟨n, 0, ""⟩ := by
  constructor <;> simp [dataclassInit, attrsInit, hn]

/-- Witness for C9 with the name `"John"` alone. -/
theorem name_only_construction_defaults_witness :
    (("John" : String) ≠ "")
    ∧ (dataclassInit "John" = .ok ⟨"John", 0, ""⟩
       ∧ attrsInit "John" = .ok ⟨"John", 0, ""⟩) :=
  ⟨by decide, name_only_construction_defaults "John" (by decide)⟩

/-- Claim C10: the wrapper's argument-type test covers only the zipped
prefix of the positional arguments: once the declared types are
satisfied, appending surplus positional arguments of any type never
triggers the `TypeError`, and the keyword arguments never influence
which error (if any) is raised. -/
theorem surplus_args_and_kwargs_unchecked
    (follows : Option String) (types : List PyType) (fname : String)
    (func : List PyVal → List (String × PyVal) → PyVal)
    (args extra : List PyVal) (kw kw' : List (String × PyVal))
    (h : types.length ≤ args.length) (hok : typesOk args types = true) :
    typesOk (args ++ extra) types = true
    ∧ typeCheckWrapper follows types fname func (args ++ extra) kw ≠ .error .typeError
    ∧ errOf (typeCheckWrapper follows types fname func (args ++ extra) kw)
      = errOf (typeCheckWrapper follows types fname func (args ++ extra) kw') := by
  have hz : typesOk (args ++ extra) types = true := by
    unfold typesOk at hok ⊢
    rw [zip_append_left args extra types h]
    exact hok
  refine ⟨hz, ?_, ?_⟩
  · unfold typeCheckWrapper
    rw [hz]
    by_cases hf : (followsFalsy follows || !(reMatch (follows.getD "") fname)) = true <;>
      simp [hf]
  · unfold typeCheckWrapper
    rw [hz]
    by_cases hf : (followsFalsy follows || !(reMatch (follows.getD "") fname)) = true <;>
      simp [hf, errOf]

/-- Witness for C10: one well-typed `int` argument followed by a surplus
`str` argument and an uninspected keyword argument. -/
theorem surplus_args_and_kwargs_unchecked_witness :
    ([PyType.int].length ≤ [PyVal.int 1].length
     ∧ typesOk [PyVal.int 1] [PyType.int] = true)
    ∧ (typesOk ([PyVal.int 1] ++ [PyVal.str "x"]) [PyType.int] = true
       ∧ typeCheckWrapper (some "f") [PyType.int] "foo" (fun _ _ => PyVal.pyNone)
           ([PyVal.int 1] ++ [PyVal.str "x"]) [("k", PyVal.str "v")] ≠ .error .typeError
       ∧ errOf (typeCheckWrapper (some "f") [PyType.int] "foo" (fun _ _ => PyVal.pyNone)
           ([PyVal.int 1] ++ [PyVal.str "x"]) [("k", PyVal.str "v")])
         = errOf (typeCheckWrapper (some "f") [PyType.int] "foo" (fun _ _ => PyVal.pyNone)
           ([PyVal.int 1] ++ [PyVal.str "x"]) [])) :=
  ⟨⟨by decide, by decide⟩,
   surplus_args_and_kwargs_unchecked (some "f") [PyType.int] "foo"
     (fun _ _ => PyVal.pyNone) [PyVal.int 1] [PyVal.str "x"]
     [("k", PyVal.str "v")] [] (by decide) (by decide)⟩
